import Mathlib

/-!
Verification development for the glazewm window-manager core.

This file gives a shallow embedding of the four source files
(`containers/traits/tiling_behavior.rs`, `common/events/handle_mouse_move.rs`,
`common/platform/native_window.rs`, `windows/non_tiling_window.rs`) and proves
or refutes the specified properties about them.  Shared `Rc<RefCell<...>>`
container nodes are embedded as an arena keyed by identifiers; `&mut` state is
threaded explicitly; fallible platform calls are `Except`-valued oracles passed
in as parameters; `anyhow::Result` becomes `Except Unit`.
-/

/-! ## Geometry -/

/-- A screen point (`common::Point`, integral coordinates). -/
structure Point where
  x : Int
  y : Int
deriving DecidableEq, Repr

/-- Modelled from the spec: `common::Rect` (its file is not under `src/`); the
spec describes window geometry as a rectangle with x, y, width and height.  The
source constructs it from left/top/right/bottom (`Rect::from_ltrb` in
`handle_mouse_move.rs`) or from x/y/width/height (`Rect::from_xy` in
`non_tiling_window.rs`). -/
structure Rect where
  left : Int
  top : Int
  right : Int
  bottom : Int
deriving DecidableEq, Repr

/-- `Rect::from_ltrb` as used in `handle_mouse_move.rs`. -/
def Rect.from_ltrb (l t r b : Int) : Rect :=
  { left := l, top := t, right := r, bottom := b }

/-- Modelled from the spec: `Rect::from_xy(x, y, width, height)` (not under
`src/`), building the rectangle whose top-left is `(x, y)` with the given
width and height. -/
def Rect.from_xy (x y width height : Int) : Rect :=
  { left := x, top := y, right := x + width, bottom := y + height }

/-- The rectangle's x coordinate (its left edge). -/
def Rect.x (r : Rect) : Int := r.left

/-- The rectangle's y coordinate (its top edge). -/
def Rect.y (r : Rect) : Int := r.top

/-- The rectangle's width. -/
def Rect.width (r : Rect) : Int := r.right - r.left

/-- The rectangle's height. -/
def Rect.height (r : Rect) : Int := r.bottom - r.top

/-! ## Container tree (arena embedding of the `Rc<RefCell<...>>` node graph) -/

/-- Containers are identified by opaque ids; parent and children references of
the shared-node graph become id-valued fields of an arena. -/
abbrev ContainerId := Nat

/-- The container tree: each container's stored parent reference
(`borrow_parent_mut` target) and its ordered children sequence
(`borrow_tiling_children_mut` target). -/
structure Arena where
  parent : ContainerId → Option ContainerId
  children : ContainerId → List ContainerId

/-- Embeds `TilingBehavior::insert_tiling_child` (tiling_behavior.rs, lines
20-30): inserts `child` into `self`'s children vector at `target_index`, then
assigns the child's parent reference; the source assigns
`Some(child.clone())` — the child itself — to `child.borrow_parent_mut()`. -/
def insert_tiling_child (a : Arena) (self : ContainerId) (target_index : Nat)
    (child : ContainerId) : Arena :=
  { children := fun c =>
      if c = self then (a.children self).insertIdx target_index child
      else a.children c,
    parent := fun c => if c = child then some child else a.parent c }

/-- Whether `anc` appears within `fuel` steps up the parent chain from `c`. -/
def is_ancestor_within (a : Arena) (fuel : Nat) (anc c : ContainerId) : Bool :=
  match fuel with
  | 0 => false
  | n + 1 =>
    match a.parent c with
    | none => false
    | some p => p = anc || is_ancestor_within a n anc p

/-- A tree with no containers attached anywhere: every parent reference is
empty and every children sequence is empty (trivially well-formed). -/
def empty_arena : Arena :=
  { parent := fun _ => none, children := fun _ => [] }

/-- Claim C1: `insert_tiling_child(p, i, c)` inserts `c` into `p`'s children at
position `i`, but it does NOT set `c`'s parent reference to `p`: the source
(line 29 of tiling_behavior.rs) sets it to `c` itself.  Evaluated at parent 1,
index 0, detached child 2. -/
theorem insert_tiling_child_self_parent_bug :
    (insert_tiling_child empty_arena 1 0 2).children 1 = [2]
    ∧ (insert_tiling_child empty_arena 1 0 2).parent 2 = some 2
    ∧ (insert_tiling_child empty_arena 1 0 2).parent 2 ≠ some 1 := by
  refine ⟨rfl, rfl, ?_⟩
  decide

/-- Claim C2: a single `insert_tiling_child(1, 0, 2)` from the well-formed
empty tree already violates both invariants: container 2 becomes its own
parent (hence its own ancestor), and its stored parent reference (2) differs
from the container that holds it in its children sequence (1). -/
theorem insert_tiling_child_cycle_bug :
    is_ancestor_within (insert_tiling_child empty_arena 1 0 2) 1 2 2 = true
    ∧ (insert_tiling_child empty_arena 1 0 2).children 1 = [2]
    ∧ (insert_tiling_child empty_arena 1 0 2).parent 2 ≠ some 1 := by
  refine ⟨?_, rfl, ?_⟩ <;> decide

/-! ## Events, platform adapter, and window state -/

/-- A pointer-move event (`MouseMoveEvent`): screen point plus whether the
primary button is held. -/
structure MouseMoveEvent where
  point : Point
  is_mouse_down : Bool
deriving DecidableEq, Repr

/-- Modelled from the spec: `WindowState` (its file is not under `src/`) —
`Tiling`; `Floating{centered, shown_on_top}`; `Minimized{prior_state}`;
`Fullscreen{prior_state}`. -/
inductive WindowState : Type
  | Tiling : WindowState
  | Floating : (centered : Bool) → (shown_on_top : Bool) → WindowState
  | Minimized : (prior_state : WindowState) → WindowState
  | Fullscreen : (prior_state : WindowState) → WindowState
deriving DecidableEq, Repr

/-- Native window handles (`HWND`). -/
abbrev Handle := Nat

/-- The platform adapter's fallible queries, as oracles: which native window
is under a point (`Platform::window_from_point`), the root ancestor of a
handle (`Platform::root_ancestor`), and whether the frame query
(`DwmGetWindowAttribute`) or the positioning call (`SetWindowPos`) fails for
a handle. -/
structure PlatformModel where
  window_from_point : Point → Except Unit Handle
  root_ancestor : Handle → Except Unit Handle
  dwm_frame_fails : Handle → Bool
  set_window_pos_fails : Handle → Bool

/-- The drag session (`AltSnap` in `wm_state`, the spec's `DragSession`):
last sampled point and whether a move is in progress. -/
structure AltSnap where
  old_mouse_position : Option Point
  is_currently_moving : Bool
deriving DecidableEq, Repr

/-- The state `handle_alt_snap` can observe or affect: its `AltSnap` session,
the platform-side window frames (read by the `DwmGetWindowAttribute` query and
written by `SetWindowPos`), and the per-window WM states.  The WM states live
in `WmState` in the source; `handle_alt_snap` receives only the `AltSnap`
session, so they are carried here to let the promotion claims be stated. -/
structure DragWorld where
  alt_snap : AltSnap
  frames : Handle → Rect
  window_states : Handle → WindowState

/-- The effect of `SetWindowPos(h, x, y, 0, 0, SWP_NOSIZE | ...)`: the frame's
top-left moves to `(x, y)` and its size is preserved. -/
def set_window_pos_effect (r : Rect) (x y : Int) : Rect :=
  { left := x, top := y, right := x + r.width, bottom := y + r.height }

/-- Lines 136-139 of `handle_mouse_move.rs`: unconditionally store the current
point as `old_mouse_position`. -/
def store_old_position (event : MouseMoveEvent) (w : DragWorld) : DragWorld :=
  { w with alt_snap :=
      { w.alt_snap with
        old_mouse_position := some { x := event.point.x, y := event.point.y } } }

/-- Line 114 of `handle_mouse_move.rs`: `state.is_currently_moving = true`. -/
def set_moving (w : DragWorld) : DragWorld :=
  { w with alt_snap := { w.alt_snap with is_currently_moving := true } }

/-- Lines 118-131 of `handle_mouse_move.rs`: the successful `SetWindowPos`
call repositions window `n`'s frame to `(point.x - 500, point.y - 500)`,
size preserved. -/
def apply_set_window_pos (n : Handle) (event : MouseMoveEvent)
    (w : DragWorld) : DragWorld :=
  let new_frames : Handle → Rect := fun h =>
    if h = n then
      set_window_pos_effect (w.frames n)
        (event.point.x - 500) (event.point.y - 500)
    else w.frames h
  { w with frames := new_frames }

/-- Embeds `handle_alt_snap` (handle_mouse_move.rs, lines 43-141), live code
only (the commented-out draft is not part of the program).  With the button
held it computes the mouse delta (unused), resolves the window under the
point, queries its frame, sets `is_currently_moving` to true, and positions
the window at `(point.x - 500, point.y - 500)` keeping its size; any `?`
failure returns early with the mutations made so far kept (Rust `&mut`
semantics).  On the fall-through it stores the current point. -/
def handle_alt_snap (platform : PlatformModel) (event : MouseMoveEvent)
    (w : DragWorld) : Except Unit Unit × DragWorld :=
  if event.is_mouse_down then
    let old_mouse_pos := (w.alt_snap.old_mouse_position).getD event.point
    let delta_mouse_pos : Point :=
      { x := event.point.x - old_mouse_pos.x, y := event.point.y - old_mouse_pos.y }
    match platform.window_from_point event.point with
    | Except.error e => (Except.error e, w)
    | Except.ok native_window =>
      if platform.dwm_frame_fails native_window then
        (Except.error (), w)
      else
        let rect := w.frames native_window
        let frame := Rect.from_ltrb rect.left rect.top rect.right rect.bottom
        let w := set_moving w
        if platform.set_window_pos_fails native_window then
          (Except.error (), w)
        else
          let w := apply_set_window_pos native_window event w
          (Except.ok (), store_old_position event w)
  else
    (Except.ok (), store_old_position event w)

/-! ## WmState, focus-follow handling, and the pointer-move pipeline -/

/-- The user configuration consumed here: `general.focus_follows_cursor`. -/
structure UserConfig where
  focus_follows_cursor : Bool
deriving DecidableEq, Repr

/-- The pending-sync accumulator's focus flag (`PendingSync`); the redraw set
is not touched by any handler embedded here. -/
structure PendingSync where
  focus_change : Bool
deriving DecidableEq, Repr

/-- The slice of `WmState` the focus handler uses: the handle→window index, the
focus cursor (identity of the focused container), and the accumulator. -/
structure WmState where
  window_index : List (Handle × ContainerId)
  focused : Option ContainerId
  pending_sync : PendingSync
deriving DecidableEq, Repr

/-- `WmState::window_from_native`: O(1) index lookup from a native handle to
the managed window's identity; a miss yields `none`, never an error. -/
def window_from_native (s : WmState) (handle : Handle) : Option ContainerId :=
  (s.window_index.find? (fun p => p.1 = handle)).map Prod.snd

/-- Modelled from the spec: `set_focused_descendant` (its file is not under
`src/`) — sets the given window as the focused descendant. -/
def set_focused_descendant (s : WmState) (id : ContainerId) : WmState :=
  { s with focused := some id }

/-- Lines 154-156 of `handle_mouse_move.rs`: resolve the window under the
point, then its root ancestor, then look it up in the index. -/
def resolve_window_under_cursor (platform : PlatformModel) (s : WmState)
    (pt : Point) : Except Unit (Option ContainerId) :=
  ((platform.window_from_point pt).bind platform.root_ancestor).map
    (window_from_native s)

/-- Embeds `handle_focus_on_hover` (handle_mouse_move.rs, lines 143-170):
skip when the button is down or the feature is disabled; resolve the window
under the cursor (propagating platform errors); on a lookup hit, require a
focused container and, when the identities differ, set the focused descendant
and raise the focus-change flag. -/
def handle_focus_on_hover (platform : PlatformModel) (event : MouseMoveEvent)
    (s : WmState) (config : UserConfig) : Except Unit Unit × WmState :=
  if event.is_mouse_down || !config.focus_follows_cursor then
    (Except.ok (), s)
  else
    match resolve_window_under_cursor platform s event.point with
    | Except.error e => (Except.error e, s)
    | Except.ok none => (Except.ok (), s)
    | Except.ok (some window) =>
      match s.focused with
      | none => (Except.error (), s)
      | some focused_id =>
        if focused_id ≠ window then
          let s := set_focused_descendant s window
          (Except.ok (),
            { s with pending_sync := { s.pending_sync with focus_change := true } })
        else
          (Except.ok (), s)

/-- The full mutable state of the pointer-move pipeline: the `WmState` slice
used by focus handling plus the drag-side state. -/
structure SystemState where
  wm : WmState
  drag : DragWorld

/-- Embeds `handle_mouse_move` (handle_mouse_move.rs, lines 34-40): its body
is exactly `handle_focus_on_hover(event, state, config)`; the drag-side state
is not touched. -/
def handle_mouse_move (platform : PlatformModel) (event : MouseMoveEvent)
    (sys : SystemState) (config : UserConfig) : Except Unit Unit × SystemState :=
  let r := handle_focus_on_hover platform event sys.wm config
  (r.1, { sys with wm := r.2 })

/-- Modelled from the spec: the pipeline ordering the spec claims for a
pointer-move event — drag/snap handling first, focus-follow handling second,
the latter observing the state after the former.  Stated only to be compared
with `handle_mouse_move`. -/
def spec_claimed_pipeline (platform : PlatformModel) (event : MouseMoveEvent)
    (sys : SystemState) (config : UserConfig) : Except Unit Unit × SystemState :=
  let r1 := handle_alt_snap platform event sys.drag
  match r1.1 with
  | Except.error e => (Except.error e, { sys with drag := r1.2 })
  | Except.ok _ =>
    let r2 := handle_focus_on_hover platform event sys.wm config
    (r2.1, { wm := r2.2, drag := r1.2 })

/-! ## Native window metadata caching -/

/-- Embeds `NativeWindow` (native_window.rs): a handle plus three lazily
populated caches (`Arc<RwLock<Option<String>>>` cells become `Option String`
fields). -/
structure NativeWindow where
  handle : Handle
  title : Option String
  process_name : Option String
  class_name : Option String
deriving DecidableEq, Repr

/-- `NativeWindow::new`: all three caches start empty. -/
def NativeWindow.new (handle : Handle) : NativeWindow :=
  { handle := handle, title := none, process_name := none, class_name := none }

/-- The outcome of a call whose lock discipline matters: either it returns a
value, or it blocks forever on a lock acquisition that can never succeed. -/
inductive LockResult (α : Type) : Type
  | returns : α → LockResult α
  | deadlock : LockResult α
deriving DecidableEq, Repr

/-- Embeds `NativeWindow::title` (lines 53-66) with the lock discipline made
explicit.  The read guard taken on the `title` cell at line 54 is a named
binding that lives to the end of the function.  On a cache hit the cached
value is cloned and returned (the platform is not queried).  In the uncached
branch the platform is queried (`GetWindowTextW`, the `os` oracle, which
cannot fail) and then line 62 acquires the write lock on the same `RwLock`
while that read guard is still held; `std::sync::RwLock` is neither
reentrant nor upgradable, so the acquisition blocks forever — the call never
returns and the cache is never populated. -/
def NativeWindow.get_title (os : Handle → String) (w : NativeWindow) :
    LockResult (String × NativeWindow) :=
  match w.title with
  | some title => LockResult.returns (title, w)
  | none =>
    let title := os w.handle
    LockResult.deadlock

/-- Embeds `NativeWindow::process_name` (lines 71-103) with the lock
discipline made explicit.  Cache hit: return the clone, no platform query.
Uncached: run the fallible platform query (`OpenProcess` /
`QueryFullProcessImageNameW`, the `os` oracle); a query failure returns the
error early (dropping the read guard normally, cache untouched), while a
successful query reaches line 99, which acquires the write lock under the
still-held read guard from line 72 and blocks forever. -/
def NativeWindow.get_process_name (os : Handle → Except Unit String)
    (w : NativeWindow) : LockResult (Except Unit String × NativeWindow) :=
  match w.process_name with
  | some process_name => LockResult.returns (Except.ok process_name, w)
  | none =>
    match os w.handle with
    | Except.error e => LockResult.returns (Except.error e, w)
    | Except.ok _ => LockResult.deadlock

/-- Embeds `NativeWindow::class_name` (lines 108-126) with the lock
discipline made explicit.  Cache hit: return the clone, no platform query.
Uncached: run the fallible platform query (`GetClassNameW`, result 0 is an
error returned early, guard dropped normally); a successful query reaches
line 122, which acquires the write lock under the still-held read guard from
line 109 and blocks forever. -/
def NativeWindow.get_class_name (os : Handle → Except Unit String)
    (w : NativeWindow) : LockResult (Except Unit String × NativeWindow) :=
  match w.class_name with
  | some class_name => LockResult.returns (Except.ok class_name, w)
  | none =>
    match os w.handle with
    | Except.error e => LockResult.returns (Except.error e, w)
    | Except.ok _ => LockResult.deadlock

/-! ## Non-tiling window construction -/

/-- Embeds `NonTilingWindowInner` (non_tiling_window.rs): the `Rc<RefCell>`
wrapper is the identity in this embedding, so the inner record stands for the
window. -/
structure NonTilingWindow where
  id : ContainerId
  parent : Option ContainerId
  native : NativeWindow
  position : Rect
deriving DecidableEq, Repr

/-- Embeds `NonTilingWindow::new` (non_tiling_window.rs, lines 29-38): fresh
id (`Uuid::new_v4`, passed as a parameter), no parent, zero position
rectangle. -/
def NonTilingWindow.new (id : ContainerId) (native_window : NativeWindow) :
    NonTilingWindow :=
  { id := id, parent := none, native := native_window,
    position := Rect.from_xy 0 0 0 0 }

/-- `PositionBehavior for NonTilingWindow` (lines 43-59): x accessor. -/
def NonTilingWindow.x (w : NonTilingWindow) : Int := w.position.x

/-- `PositionBehavior for NonTilingWindow`: y accessor. -/
def NonTilingWindow.y (w : NonTilingWindow) : Int := w.position.y

/-- `PositionBehavior for NonTilingWindow`: width accessor. -/
def NonTilingWindow.width (w : NonTilingWindow) : Int := w.position.width

/-- `PositionBehavior for NonTilingWindow`: height accessor. -/
def NonTilingWindow.height (w : NonTilingWindow) : Int := w.position.height

/-- The state produced by the focus handler's mutation branch: focused
descendant set to `window` and the focus-change flag raised. -/
def focus_update (s : WmState) (window : ContainerId) : WmState :=
  { s with focused := some window,
           pending_sync := { s.pending_sync with focus_change := true } }

/-! ## Concrete fixtures -/

/-- A platform where the window under any point is handle 7, a handle is its
own root ancestor, and all calls succeed. -/
def test_platform : PlatformModel :=
  { window_from_point := fun _ => Except.ok 7,
    root_ancestor := fun h => Except.ok h,
    dwm_frame_fails := fun _ => false,
    set_window_pos_fails := fun _ => false }

/-- As `test_platform` but every `SetWindowPos` call fails. -/
def setpos_fail_platform : PlatformModel :=
  { test_platform with set_window_pos_fails := fun _ => true }

/-- Fresh drag-side state: no session, every frame a 200x100 rectangle at the
origin, every window tiling. -/
def drag_world0 : DragWorld :=
  { alt_snap := { old_mouse_position := none, is_currently_moving := false },
    frames := fun _ => Rect.from_ltrb 0 0 200 100,
    window_states := fun _ => WindowState.Tiling }

/-- Drag-side state mid-session: last sample (5, 5), currently moving. -/
def drag_world_live : DragWorld :=
  { drag_world0 with alt_snap :=
      { old_mouse_position := some { x := 5, y := 5 },
        is_currently_moving := true } }

/-- First drag sample of the spec's scenario: P0 = (100, 100), button held. -/
def ev_p0 : MouseMoveEvent :=
  { point := { x := 100, y := 100 }, is_mouse_down := true }

/-- Second drag sample of the spec's scenario: P1 = (110, 95), button held. -/
def ev_p1 : MouseMoveEvent :=
  { point := { x := 110, y := 95 }, is_mouse_down := true }

/-- A pointer event with the button released, at (3, 4). -/
def ev_up : MouseMoveEvent :=
  { point := { x := 3, y := 4 }, is_mouse_down := false }

/-- A `WmState` slice: handle 7 is managed window 42, window 41 focused,
no pending focus change. -/
def wm_state0 : WmState :=
  { window_index := [(7, 42)], focused := some 41,
    pending_sync := { focus_change := false } }

/-- Combined pipeline state built from the fixtures above. -/
def sys0 : SystemState :=
  { wm := wm_state0, drag := drag_world0 }

/-- Configuration with focus-follows-cursor enabled. -/
def cfg_on : UserConfig :=
  { focus_follows_cursor := true }

/-! ## Drag-handler case characterization (shared helper) -/

/-- Complete case analysis of `handle_alt_snap`: button up stores the sample;
with the button down, each failure point returns early with the mutations so
far, and the success path sets the moving flag, repositions the frame and
stores the sample. -/
theorem handle_alt_snap_cases (platform : PlatformModel)
    (event : MouseMoveEvent) (w : DragWorld) :
    (event.is_mouse_down = false
      ∧ handle_alt_snap platform event w = (Except.ok (), store_old_position event w))
    ∨ (event.is_mouse_down = true
      ∧ ∃ e, platform.window_from_point event.point = Except.error e
        ∧ handle_alt_snap platform event w = (Except.error e, w))
    ∨ (event.is_mouse_down = true
      ∧ ∃ n, platform.window_from_point event.point = Except.ok n
        ∧ platform.dwm_frame_fails n = true
        ∧ handle_alt_snap platform event w = (Except.error (), w))
    ∨ (event.is_mouse_down = true
      ∧ ∃ n, platform.window_from_point event.point = Except.ok n
        ∧ platform.dwm_frame_fails n = false
        ∧ platform.set_window_pos_fails n = true
        ∧ handle_alt_snap platform event w = (Except.error (), set_moving w))
    ∨ (event.is_mouse_down = true
      ∧ ∃ n, platform.window_from_point event.point = Except.ok n
        ∧ platform.dwm_frame_fails n = false
        ∧ platform.set_window_pos_fails n = false
        ∧ handle_alt_snap platform event w =
            (Except.ok (),
              store_old_position event (apply_set_window_pos n event (set_moving w)))) := by
  by_cases hdown : event.is_mouse_down = true
  · cases hwin : platform.window_from_point event.point with
    | error e =>
      refine Or.inr (Or.inl ⟨hdown, e, rfl, ?_⟩)
      simp [handle_alt_snap, hdown, hwin]
    | ok n =>
      by_cases hdwm : platform.dwm_frame_fails n = true
      · refine Or.inr (Or.inr (Or.inl ⟨hdown, n, rfl, hdwm, ?_⟩))
        simp [handle_alt_snap, hdown, hwin, hdwm]
      · by_cases hpos : platform.set_window_pos_fails n = true
        · refine Or.inr (Or.inr (Or.inr (Or.inl
            ⟨hdown, n, rfl, by simpa using hdwm, hpos, ?_⟩)))
          simp [handle_alt_snap, hdown, hwin, hdwm, hpos]
        · refine Or.inr (Or.inr (Or.inr (Or.inr
            ⟨hdown, n, rfl, by simpa using hdwm, by simpa using hpos, ?_⟩)))
          simp [handle_alt_snap, hdown, hwin, hdwm, hpos]
  · refine Or.inl ⟨by simpa using hdown, ?_⟩
    simp [handle_alt_snap, hdown]

/-- As `test_platform` but `window_from_point` always fails. -/
def wfp_fail_platform : PlatformModel :=
  { test_platform with window_from_point := fun _ => Except.error () }

/-! ## Claim C3: pipeline ordering -/

/-- Claim C3, counterexample: on the pointer-move pipeline's own entry point
(`handle_mouse_move`), drag/snap handling never runs.  For the mouse-down
event P0 the spec-claimed drag-first pipeline updates the drag session; the
code's `handle_mouse_move` leaves it untouched, so the two disagree. -/
theorem handle_mouse_move_skips_drag_cex :
    ((handle_mouse_move test_platform ev_p0 sys0 cfg_on).2).drag.alt_snap =
      { old_mouse_position := none, is_currently_moving := false }
    ∧ ((spec_claimed_pipeline test_platform ev_p0 sys0 cfg_on).2).drag.alt_snap =
      { old_mouse_position := some { x := 100, y := 100 },
        is_currently_moving := true }
    ∧ ((handle_mouse_move test_platform ev_p0 sys0 cfg_on).2).drag.alt_snap ≠
      ((spec_claimed_pipeline test_platform ev_p0 sys0 cfg_on).2).drag.alt_snap := by
  refine ⟨rfl, rfl, ?_⟩
  decide

/-- Claim C3, amended: `handle_mouse_move` runs only focus-follow handling;
its result is exactly that of `handle_focus_on_hover` on the `WmState` slice,
and the drag-side state is never touched. -/
theorem handle_mouse_move_only_focus_follow (platform : PlatformModel)
    (event : MouseMoveEvent) (sys : SystemState) (config : UserConfig) :
    (handle_mouse_move platform event sys config).1 =
      (handle_focus_on_hover platform event sys.wm config).1
    ∧ ((handle_mouse_move platform event sys config).2).wm =
      (handle_focus_on_hover platform event sys.wm config).2
    ∧ ((handle_mouse_move platform event sys config).2).drag = sys.drag :=
  ⟨rfl, rfl, rfl⟩

/-! ## Claim C4: drag delta -/

/-- Claim C4, counterexample: starting from a 200x100 frame at the origin,
after the samples P0 = (100, 100) then P1 = (110, 95) (button held, all
platform calls succeeding) the frame is at (-390, -405) — the position
`P1 - (500, 500)` — not at (10, -5), the pre-drag frame translated by the
claimed delta (+10, -5). -/
theorem alt_snap_delta_cex :
    ((handle_alt_snap test_platform ev_p1
        ((handle_alt_snap test_platform ev_p0 drag_world0).2)).2).frames 7 =
      Rect.from_ltrb (-390) (-405) (-190) (-305)
    ∧ ((handle_alt_snap test_platform ev_p1
        ((handle_alt_snap test_platform ev_p0 drag_world0).2)).2).frames 7 ≠
      Rect.from_ltrb 10 (-5) 210 95 := by
  refine ⟨rfl, ?_⟩
  decide

/-- Claim C4, amended: on a successfully processed qualifying drag event the
window's frame is committed to top-left `(point.x - 500, point.y - 500)` with
its size preserved — the sampled delta is computed but never applied. -/
theorem alt_snap_positions_at_cursor_offset (platform : PlatformModel)
    (event : MouseMoveEvent) (w : DragWorld) (n : Handle)
    (hdown : event.is_mouse_down = true)
    (hwin : platform.window_from_point event.point = Except.ok n)
    (hdwm : platform.dwm_frame_fails n = false)
    (hpos : platform.set_window_pos_fails n = false) :
    ((handle_alt_snap platform event w).2).frames n =
      set_window_pos_effect (w.frames n)
        (event.point.x - 500) (event.point.y - 500) := by
  simp [handle_alt_snap, hdown, hwin, hdwm, hpos, store_old_position,
    apply_set_window_pos, set_moving]

/-- Witness for the amended C4 theorem at P0 on the fixture world. -/
theorem alt_snap_positions_at_cursor_offset_witness :
    ((handle_alt_snap test_platform ev_p0 drag_world0).2).frames 7 =
      set_window_pos_effect (drag_world0.frames 7)
        (ev_p0.point.x - 500) (ev_p0.point.y - 500) :=
  alt_snap_positions_at_cursor_offset test_platform ev_p0 drag_world0 7
    rfl rfl rfl rfl

/-! ## Claim C5: promotion-once -/

/-- Claim C5, counterexample: the first qualifying sample of a fresh session
(`is_currently_moving` false) completes successfully yet leaves the resolved
window's state `Tiling` — no `Tiling → Floating{centered: false,
shown_on_top: true}` transition happens at all. -/
theorem alt_snap_no_promotion_cex :
    drag_world0.alt_snap.is_currently_moving = false
    ∧ drag_world0.window_states 7 = WindowState.Tiling
    ∧ (handle_alt_snap test_platform ev_p0 drag_world0).1 = Except.ok ()
    ∧ ((handle_alt_snap test_platform ev_p0 drag_world0).2).window_states 7 =
        WindowState.Tiling
    ∧ ((handle_alt_snap test_platform ev_p0 drag_world0).2).window_states 7 ≠
        WindowState.Floating false true := by
  refine ⟨rfl, rfl, rfl, rfl, ?_⟩
  decide

/-- Claim C5, amended: drag handling performs no window-state transition on
any event (the promotion code is absent), and it sets `is_currently_moving`
to true on every successfully processed qualifying event, not only the
first. -/
theorem alt_snap_never_promotes (platform : PlatformModel)
    (event : MouseMoveEvent) (w : DragWorld)
    (hdown : event.is_mouse_down = true)
    (hok : (handle_alt_snap platform event w).1 = Except.ok ()) :
    ((handle_alt_snap platform event w).2).window_states = w.window_states
    ∧ ((handle_alt_snap platform event w).2).alt_snap.is_currently_moving = true := by
  rcases handle_alt_snap_cases platform event w with
      ⟨hup, _⟩ | ⟨_, e, _, heq⟩ | ⟨_, n, _, _, heq⟩ |
      ⟨_, n, _, _, _, heq⟩ | ⟨_, n, _, _, _, heq⟩
  · exact absurd hdown (by simp [hup])
  · rw [heq] at hok; exact absurd hok (by simp)
  · rw [heq] at hok; exact absurd hok (by simp)
  · rw [heq] at hok; exact absurd hok (by simp)
  · rw [heq]
    exact ⟨by simp [store_old_position, apply_set_window_pos, set_moving],
      by simp [store_old_position, apply_set_window_pos, set_moving]⟩

/-- Witness for the amended C5 theorem at P0 on the fixture world. -/
theorem alt_snap_never_promotes_witness :
    ((handle_alt_snap test_platform ev_p0 drag_world0).2).window_states =
      drag_world0.window_states
    ∧ ((handle_alt_snap test_platform ev_p0 drag_world0).2).alt_snap.is_currently_moving
        = true :=
  alt_snap_never_promotes test_platform ev_p0 drag_world0 rfl rfl

/-! ## Claim C6: session reset on release -/

/-- Claim C6, counterexample: a button-up event at (3, 4) during a session
(last sample (5, 5), moving) does not reset the session to its initial value:
`old_mouse_position` becomes `Some((3, 4))` (not `None`) and
`is_currently_moving` stays true (not false). -/
theorem alt_snap_release_cex :
    ((handle_alt_snap test_platform ev_up drag_world_live).2).alt_snap =
      { old_mouse_position := some { x := 3, y := 4 },
        is_currently_moving := true }
    ∧ ((handle_alt_snap test_platform ev_up drag_world_live).2).alt_snap ≠
      { old_mouse_position := none, is_currently_moving := false } := by
  refine ⟨rfl, ?_⟩
  decide

/-- Claim C6, amended: on button release drag handling stores the current
point as `old_mouse_position`, leaves `is_currently_moving` (and all frames
and window states) unchanged, and succeeds. -/
theorem alt_snap_release_stores_sample (platform : PlatformModel)
    (event : MouseMoveEvent) (w : DragWorld)
    (hup : event.is_mouse_down = false) :
    (handle_alt_snap platform event w).1 = Except.ok ()
    ∧ ((handle_alt_snap platform event w).2).alt_snap.old_mouse_position =
        some event.point
    ∧ ((handle_alt_snap platform event w).2).alt_snap.is_currently_moving =
        w.alt_snap.is_currently_moving
    ∧ ((handle_alt_snap platform event w).2).frames = w.frames
    ∧ ((handle_alt_snap platform event w).2).window_states = w.window_states := by
  simp [handle_alt_snap, hup, store_old_position]

/-- Witness for the amended C6 theorem at the button-up fixture. -/
theorem alt_snap_release_stores_sample_witness :
    (handle_alt_snap test_platform ev_up drag_world_live).1 = Except.ok ()
    ∧ ((handle_alt_snap test_platform ev_up drag_world_live).2).alt_snap.old_mouse_position
        = some ev_up.point
    ∧ ((handle_alt_snap test_platform ev_up drag_world_live).2).alt_snap.is_currently_moving
        = drag_world_live.alt_snap.is_currently_moving
    ∧ ((handle_alt_snap test_platform ev_up drag_world_live).2).frames =
        drag_world_live.frames
    ∧ ((handle_alt_snap test_platform ev_up drag_world_live).2).window_states =
        drag_world_live.window_states :=
  alt_snap_release_stores_sample test_platform ev_up drag_world_live rfl

/-! ## Claim C7: failure leaves state unchanged -/

/-- Claim C7, counterexample: when the positioning call fails during a
qualifying drag event, `handle_alt_snap` returns an error but
`is_currently_moving` — mutated before the failing call — remains changed,
so the state is not exactly as it was before the failing call. -/
theorem alt_snap_error_mutation_cex :
    drag_world0.alt_snap.is_currently_moving = false
    ∧ (handle_alt_snap setpos_fail_platform ev_p0 drag_world0).1 =
        Except.error ()
    ∧ ((handle_alt_snap setpos_fail_platform ev_p0 drag_world0).2).alt_snap.is_currently_moving
        = true :=
  ⟨rfl, rfl, rfl⟩

/-- Claim C7, amended: every failure of `handle_focus_on_hover` leaves
`WmState` exactly unchanged; a failure of `handle_alt_snap` leaves the state
either unchanged (window-resolution or frame-query failure) or with
`is_currently_moving` already set to true (positioning failure). -/
theorem error_abort_state_behavior :
    (∀ (platform : PlatformModel) (event : MouseMoveEvent) (s : WmState)
        (config : UserConfig) (e : Unit),
      (handle_focus_on_hover platform event s config).1 = Except.error e →
      (handle_focus_on_hover platform event s config).2 = s)
    ∧ (∀ (platform : PlatformModel) (event : MouseMoveEvent) (w : DragWorld)
        (e : Unit),
      (handle_alt_snap platform event w).1 = Except.error e →
      (handle_alt_snap platform event w).2 = w
      ∨ (handle_alt_snap platform event w).2 = set_moving w) := by
  constructor
  · intro platform event s config e herr
    by_cases hguard : (event.is_mouse_down || !config.focus_follows_cursor) = true
    · simp [handle_focus_on_hover, hguard] at herr
    · have hguard' : (event.is_mouse_down || !config.focus_follows_cursor) = false := by
        simpa using hguard
      cases hres : resolve_window_under_cursor platform s event.point with
      | error e2 => simp [handle_focus_on_hover, hguard', hres]
      | ok owin =>
        cases owin with
        | none => simp [handle_focus_on_hover, hguard', hres] at herr
        | some window =>
          cases hfoc : s.focused with
          | none => simp [handle_focus_on_hover, hguard', hres, hfoc]
          | some fid =>
            by_cases hne : fid ≠ window
            · simp [handle_focus_on_hover, hguard', hres, hfoc, hne] at herr
            · simp [handle_focus_on_hover, hguard', hres, hfoc, hne] at herr
  · intro platform event w e herr
    rcases handle_alt_snap_cases platform event w with
        ⟨hup, heq⟩ | ⟨_, e2, _, heq⟩ | ⟨_, n, _, _, heq⟩ |
        ⟨_, n, _, _, _, heq⟩ | ⟨_, n, _, _, _, heq⟩
    · rw [heq] at herr; exact absurd herr (by simp)
    · rw [heq]; exact Or.inl rfl
    · rw [heq]; exact Or.inl rfl
    · rw [heq]; exact Or.inr rfl
    · rw [heq] at herr; exact absurd herr (by simp)

/-- Witness for the amended C7 theorem: a focus-handler failure (window
resolution fails) leaves the state unchanged, and the failing positioning
call leaves the drag state in one of the two described shapes. -/
theorem error_abort_state_behavior_witness :
    ((handle_focus_on_hover wfp_fail_platform ev_up wm_state0 cfg_on).2 =
      wm_state0)
    ∧ ((handle_alt_snap setpos_fail_platform ev_p0 drag_world0).2 = drag_world0
      ∨ (handle_alt_snap setpos_fail_platform ev_p0 drag_world0).2 =
          set_moving drag_world0) :=
  ⟨error_abort_state_behavior.1 wfp_fail_platform ev_up wm_state0 cfg_on () rfl,
   error_abort_state_behavior.2 setpos_fail_platform ev_p0 drag_world0 () rfl⟩

/-! ## Claim C8: focus-follow behaviour -/

/-- Claim C8: given a focused container `fid`, focus-follow handling mutates
the state — setting the resolved window as focused and raising the
focus-change flag — exactly when the button is up, the feature is enabled,
the window under the point resolves to a managed window, and that window's
identity differs from `fid`; in every other case (button down, feature
disabled, resolution failure, lookup miss, or identical focus) the state is
returned unchanged. -/
theorem handle_focus_on_hover_focus_iff (platform : PlatformModel)
    (event : MouseMoveEvent) (s : WmState) (config : UserConfig)
    (fid : ContainerId) (hfoc : s.focused = some fid) :
    (∀ window, event.is_mouse_down = false →
      config.focus_follows_cursor = true →
      resolve_window_under_cursor platform s event.point =
        Except.ok (some window) →
      fid ≠ window →
      handle_focus_on_hover platform event s config =
        (Except.ok (), focus_update s window))
    ∧ (event.is_mouse_down = true →
        (handle_focus_on_hover platform event s config).2 = s)
    ∧ (config.focus_follows_cursor = false →
        (handle_focus_on_hover platform event s config).2 = s)
    ∧ (∀ e, resolve_window_under_cursor platform s event.point = Except.error e →
        (handle_focus_on_hover platform event s config).2 = s)
    ∧ (resolve_window_under_cursor platform s event.point = Except.ok none →
        (handle_focus_on_hover platform event s config).2 = s)
    ∧ (resolve_window_under_cursor platform s event.point =
        Except.ok (some fid) →
        (handle_focus_on_hover platform event s config).2 = s) := by
  refine ⟨?_, ?_, ?_, ?_, ?_, ?_⟩
  · intro window hdown hcfg hres hne
    simp [handle_focus_on_hover, hdown, hcfg, hres, hfoc, hne, focus_update,
      set_focused_descendant]
  · intro hdown
    simp [handle_focus_on_hover, hdown]
  · intro hcfg
    simp [handle_focus_on_hover, hcfg]
  · intro e hres
    by_cases hguard : (event.is_mouse_down || !config.focus_follows_cursor) = true
    · simp [handle_focus_on_hover, hguard]
    · have hguard' : (event.is_mouse_down || !config.focus_follows_cursor) = false := by
        simpa using hguard
      simp [handle_focus_on_hover, hguard', hres]
  · intro hres
    by_cases hguard : (event.is_mouse_down || !config.focus_follows_cursor) = true
    · simp [handle_focus_on_hover, hguard]
    · have hguard' : (event.is_mouse_down || !config.focus_follows_cursor) = false := by
        simpa using hguard
      simp [handle_focus_on_hover, hguard', hres]
  · intro hres
    by_cases hguard : (event.is_mouse_down || !config.focus_follows_cursor) = true
    · simp [handle_focus_on_hover, hguard]
    · have hguard' : (event.is_mouse_down || !config.focus_follows_cursor) = false := by
        simpa using hguard
      simp [handle_focus_on_hover, hguard', hres, hfoc]

/-- Witness for the C8 theorem: with window 41 focused, hovering (button up,
feature on) over handle 7 — managed window 42 — focuses 42 and raises the
flag. -/
theorem handle_focus_on_hover_focus_iff_witness :
    handle_focus_on_hover test_platform ev_up wm_state0 cfg_on =
      (Except.ok (), focus_update wm_state0 42) :=
  (handle_focus_on_hover_focus_iff test_platform ev_up wm_state0 cfg_on 41
    rfl).1 42 rfl rfl rfl (by decide)

/-! ## Claim C9: metadata caching -/

/-- Claim C9: the claimed populate-once-then-hit behaviour cannot execute.
On a fresh window every first metadata call takes the uncached branch and
deadlocks — the write lock is acquired while the function's own read guard
on the same cell is still live (native_window.rs lines 62, 99, 122) — so no
first successful retrieval exists and no cache is ever populated, contrary
to the source's own doc comments ("This value is lazily retrieved and is
cached after first retrieval").  An already-populated cache, by contrast, is
returned as-is, with the platform oracle ignored. -/
theorem cached_metadata_first_call_deadlocks :
    NativeWindow.get_title (fun _ => "t1") (NativeWindow.new 7) =
      LockResult.deadlock
    ∧ NativeWindow.get_process_name (fun _ => Except.ok "p1")
        (NativeWindow.new 7) = LockResult.deadlock
    ∧ NativeWindow.get_class_name (fun _ => Except.ok "c1")
        (NativeWindow.new 7) = LockResult.deadlock
    ∧ NativeWindow.get_title (fun _ => "t2")
        { NativeWindow.new 7 with title := some "t1" } =
      LockResult.returns ("t1", { NativeWindow.new 7 with title := some "t1" })
    ∧ NativeWindow.get_process_name (fun _ => Except.ok "p2")
        { NativeWindow.new 7 with process_name := some "p1" } =
      LockResult.returns (Except.ok "p1",
        { NativeWindow.new 7 with process_name := some "p1" })
    ∧ NativeWindow.get_class_name (fun _ => Except.ok "c2")
        { NativeWindow.new 7 with class_name := some "c1" } =
      LockResult.returns (Except.ok "c1",
        { NativeWindow.new 7 with class_name := some "c1" }) :=
  ⟨rfl, rfl, rfl, rfl, rfl, rfl⟩

/-! ## Claim C10: non-tiling window construction -/

/-- Claim C10: `NonTilingWindow::new` yields a window with no parent
reference and the zero rectangle as geometry (x, y, width and height all
zero); any non-zero floating placement must come from a later operation. -/
theorem non_tiling_window_new_defaults (id : ContainerId)
    (native_window : NativeWindow) :
    (NonTilingWindow.new id native_window).parent = none
    ∧ (NonTilingWindow.new id native_window).x = 0
    ∧ (NonTilingWindow.new id native_window).y = 0
    ∧ (NonTilingWindow.new id native_window).width = 0
    ∧ (NonTilingWindow.new id native_window).height = 0 :=
  ⟨rfl, rfl, rfl, rfl, rfl⟩
